import Mathlib

/-!
Shallow embedding of the simulation core of `rusty-snake` (src/main.rs, a
bevy 0.5 application).  Each bevy system becomes a Lean function on an
explicit `GameState`; the per-frame schedule becomes the function `tick`
that composes them in the order fixed by the labels in `main()`:
`snake_movement_input` (before Movement) → `snake_movement` (Movement) →
`game_over` (after Movement) → `snake_eating` (Eating, after Movement) →
`snake_growth` (Growth, after Eating) → `food_event_reader`/`food_spawner`
(after Eating).

Two pieces of bevy 0.5 semantics are modelled explicitly because the
claims depend on them:

* Direct `Query` mutations (`positions.get_mut`) are visible immediately
  to later systems in the same frame, so movement results are seen by the
  eating check.

* `Commands` (entity spawns and despawns) are only applied at the end of
  the stage; every system above runs in `CoreStage::Update`, so within one
  frame the food entity despawned by `snake_eating` is still visible to
  the blocker query of `food_spawner`, while the segment entity spawned by
  `snake_growth` has no `Position` component yet and is invisible to it.
  `tick` therefore computes the blocker list of `food_spawner` from the
  frame-start entities (their positions as mutated by `snake_movement`,
  plus the frame-start food cell), not from the post-command state.

Machine integers: `Position` fields are Rust `i32`, modelled as `Int`
(the ±1 moves of the core never approach the i32 boundary); the `as u32`
cast in the bounds check is modelled exactly as reduction mod 2^32.
`Score` is a `u32`, modelled as `Nat` (incremented once per food eaten).
The `rand::random` draws of `food_spawner` are modelled as an explicit
list of candidate cells consumed by its retry loop.
-/

/-- Rust `struct Position { x: i32, y: i32 }` with derived structural equality. -/
structure Position where
  x : Int
  y : Int
deriving DecidableEq, Repr

/-- Rust `enum Direction { Left, Up, Right, Down }`. -/
inductive Direction where
  | left
  | up
  | right
  | down
deriving DecidableEq, Repr

/-- Rust `Direction::opposite`. -/
def Direction.opposite : Direction → Direction
  | .left => .right
  | .right => .left
  | .up => .down
  | .down => .up

/-- Rust `struct SnakeHead { direction: Direction, input_direction: Direction }`. -/
structure SnakeHead where
  direction : Direction
  input_direction : Direction
deriving DecidableEq, Repr

/-- Rust `const ARENA_WIDTH: u32 = 16`. -/
def ARENA_WIDTH : Nat := 16

/-- Rust `const ARENA_HEIGHT: u32 = 16`. -/
def ARENA_HEIGHT : Nat := 16

/-- The whole mutable simulation state touched by the systems: the
`SnakeSegments` resource flattened to the ordered list of segment
`Position`s (head first), the head's direction fields, the
`LastTailPosition` and `Score` resources, and the cell of the food
entity when one is alive. -/
structure GameState where
  head : SnakeHead
  segments : List Position
  last_tail_position : Option Position
  food : Option Position
  score : Nat
deriving DecidableEq, Repr

/-- The WASD key states read by `snake_movement_input` in one poll. -/
structure KeyboardInput where
  a : Bool
  d : Bool
  s : Bool
  w : Bool
deriving DecidableEq, Repr

/-- The `let dir` chain of `snake_movement_input`: key precedence
A (Left), then D (Right), then S (Down), then W (Up), falling back to the
currently latched `input_direction` when no key is pressed. -/
def chosen_direction (keyboard_input : KeyboardInput) (head : SnakeHead) : Direction :=
  if keyboard_input.a then .left
  else if keyboard_input.d then .right
  else if keyboard_input.s then .down
  else if keyboard_input.w then .up
  else head.input_direction

/-- Rust `fn snake_movement_input`: latch `dir` into `input_direction` unless it
is the opposite of the current `direction`. -/
def snake_movement_input (keyboard_input : KeyboardInput) (head : SnakeHead) : SnakeHead :=
  let dir := chosen_direction keyboard_input head
  if dir ≠ head.direction.opposite then { head with input_direction := dir } else head

/-- The in-place mutation of `head_pos` in `snake_movement`'s `match`
(Left: x−1, Right: x+1, Up: y+1, Down: y−1). -/
def Position.step : Position → Direction → Position
  | p, .left => { p with x := p.x - 1 }
  | p, .right => { p with x := p.x + 1 }
  | p, .up => { p with y := p.y + 1 }
  | p, .down => { p with y := p.y - 1 }

/-- Rust's `as u32` cast applied to an `i32` value: reduction mod 2^32. -/
def i32_as_u32 (x : Int) : Nat := (x % 4294967296).toNat

/-- Output of one run of the `snake_movement` system: the mutated state
plus the two independent `DeathEvent` sends (bounds check and
self-collision check). -/
structure MovementResult where
  state : GameState
  bounds_death : Bool
  self_death : Bool
deriving DecidableEq, Repr

/-- Rust `fn snake_movement`.  Snapshot all segment positions, re-latch
`direction := input_direction`, step the head one cell, send a
`DeathEvent` when the new head is out of `[0,16) × [0,16)` (the source
compares `head_pos.x as u32 >= ARENA_WIDTH` after checking `< 0`) and a
second one when the new head equals any cell of the pre-move snapshot,
then shift each trailing segment to the snapshot position of the segment
ahead of it (`zip` with `skip(1)`), and record the snapshot position of
the last segment in `LastTailPosition`.  When no head entity exists the
system does nothing. -/
def snake_movement (g : GameState) : MovementResult :=
  match g.segments with
  | [] => ⟨g, false, false⟩
  | old_head :: tl =>
    let segment_positions : List Position := old_head :: tl
    let direction := g.head.input_direction
    let head_pos := old_head.step direction
    let bounds_death : Bool :=
      decide (head_pos.x < 0) || decide (head_pos.y < 0) ||
      decide (ARENA_WIDTH ≤ i32_as_u32 head_pos.x) ||
      decide (ARENA_HEIGHT ≤ i32_as_u32 head_pos.y)
    let self_death : Bool := decide (head_pos ∈ segment_positions)
    ⟨{ g with
        head := { g.head with direction := direction },
        segments := head_pos :: segment_positions.dropLast,
        last_tail_position :=
          some (segment_positions.getLast (List.cons_ne_nil old_head tl)) },
      bounds_death, self_death⟩

/-- The segment layout produced by `fn spawn_snake`: the head entity at
(3,3) and one trailing segment at (3,2). -/
def spawn_snake_segments : List Position := [⟨3, 3⟩, ⟨3, 2⟩]

/-- Rust `fn spawn_snake`: replace the `SnakeSegments` resource with the fixed
two-entity initial body, the head carrying `direction: Up,
input_direction: Up`. -/
def spawn_snake (g : GameState) : GameState :=
  { g with
      head := { direction := .up, input_direction := .up },
      segments := spawn_snake_segments }

/-- Rust `fn game_over`, given the number of `DeathEvent`s sent this frame.
`reader.iter().next().is_some()` fires the body when at least one event
is pending (exactly once however many are pending): despawn the food and
all segment entities, `spawn_snake`, send one `FoodSpawnEvent`, and set
the score to 0.  Returns the state and whether the food respawn was
requested. -/
def game_over (deaths : Nat) (g : GameState) : GameState × Bool :=
  if deaths ≠ 0 then
    ({ spawn_snake g with food := none, score := 0 }, true)
  else (g, false)

/-- Rust `fn snake_eating`: for the (single) head position and the (at most
one) live food entity, when they coincide despawn the food and send one
`GrowthEvent` and one `FoodSpawnEvent`.  Returns the state, the growth
signal and the food-respawn signal. -/
def snake_eating (g : GameState) : GameState × Bool × Bool :=
  match g.segments with
  | [] => (g, false, false)
  | head_pos :: _ =>
    match g.food with
    | some food_pos =>
      if food_pos = head_pos then ({ g with food := none }, true, true)
      else (g, false, false)
    | none => (g, false, false)

/-- Rust `fn snake_growth`, given the pending `GrowthEvent` signal: append one
segment at `last_tail_position.0.unwrap()` (the `unwrap` panics when no
movement has recorded a tail position yet, modelled as `none`) and
increment the score. -/
def snake_growth (growth : Bool) (g : GameState) : Option GameState :=
  if growth then
    match g.last_tail_position with
    | none => none
    | some p => some { g with segments := g.segments ++ [p], score := g.score + 1 }
  else some g

/-- The retry loop of `get_empty_pos` inside `fn food_spawner`: take
random candidate cells until one is not blocked.  The candidate stream is
the explicit list `draws`; `none` models exhausting it, i.e. the
unbounded `while` loop never finding a free cell. -/
def get_empty_pos (blockers : List Position) (draws : List Position) : Option Position :=
  draws.find? (fun p => decide (p ∉ blockers))

/-- One frame of the fixed-timestep schedule (one simulation tick).
`kbs` is the list of input polls latched since the previous tick (the
input system runs at render cadence, `before(Movement)`); `draws` feeds
`food_spawner`'s sampler.  `none` models a panic (`unwrap` of a missing
`LastTailPosition`) or a food-placement loop that never terminates.

The blocker query of `food_spawner` runs before any of this frame's
`Commands` are applied (end of `CoreStage::Update`), so it sees the
frame-start segment entities at their post-movement positions together
with the frame-start food entity — not the segment appended by
`snake_growth` this frame, and still including a food entity despawned by
`snake_eating` or `game_over` this frame.

The labels leave a few system pairs unordered; this function serializes
them as Input → Movement → game_over → Eating → Growth →
food_event_reader, one of the orders the bevy executor may pick.  For
the pair whose order is observable between ticks — `game_over` versus
`food_event_reader`, which conflict on `Events<FoodSpawnEvent>` — the
other admissible order is modelled by `tick_reader_first` below. -/
def tick (kbs : List KeyboardInput) (draws : List Position) (g0 : GameState) :
    Option GameState :=
  let g1 : GameState :=
    { g0 with head := kbs.foldl (fun h kb => snake_movement_input kb h) g0.head }
  let m := snake_movement g1
  let deaths : Nat := (cond m.bounds_death 1 0) + (cond m.self_death 1 0)
  let reset := game_over deaths m.state
  let eat := snake_eating reset.1
  match snake_growth eat.2.1 eat.1 with
  | none => none
  | some g5 =>
    if reset.2 || eat.2.2 then
      let blockers : List Position := m.state.segments ++ g0.food.toList
      match get_empty_pos blockers draws with
      | none => none
      | some p => some { g5 with food := some p }
    else some g5

/-- The observable snapshot between ticks: ordered snake cells, food
cell, score. -/
structure Snapshot where
  cells : List Position
  food : Option Position
  score : Nat
deriving DecidableEq, Repr

/-- Read-only projection of the state to its observable snapshot. -/
def GameState.snapshot (g : GameState) : Snapshot :=
  ⟨g.segments, g.food, g.score⟩

/-- The same frame under the other admissible executor order.  The labels
in `main()` order `food_event_reader` only after `SnakeMovement::Eating`
and `game_over` only after `SnakeMovement::Movement`; the two systems
conflict (`game_over` holds an `EventWriter<FoodSpawnEvent>`, i.e.
`ResMut<Events<FoodSpawnEvent>>`, which `food_event_reader` reads), so
bevy 0.5's parallel executor serializes them in an arbitrary,
run-dependent order.  `tick` realizes the order in which
`food_event_reader` runs after `game_over` and sees its event the same
frame; this function realizes the order in which it runs first: the
`FoodSpawnEvent` sent by `game_over` stays pending and is read on the
next frame (bevy events survive one frame), after the frame's `Commands`
have been applied — so a death-driven placement computes its blockers
from the freshly spawned snake `[(3,3),(3,2)]` instead of the
frame-start entities.  Eat-driven placements are unaffected:
`snake_eating` is ordered before `food_event_reader` by the labels. -/
def tick_reader_first (kbs : List KeyboardInput) (draws : List Position)
    (g0 : GameState) : Option GameState :=
  let g1 : GameState :=
    { g0 with head := kbs.foldl (fun h kb => snake_movement_input kb h) g0.head }
  let m := snake_movement g1
  let deaths : Nat := (cond m.bounds_death 1 0) + (cond m.self_death 1 0)
  let reset := game_over deaths m.state
  let eat := snake_eating reset.1
  match snake_growth eat.2.1 eat.1 with
  | none => none
  | some g5 =>
    if eat.2.2 then
      let blockers : List Position := m.state.segments ++ g0.food.toList
      match get_empty_pos blockers draws with
      | none => none
      | some p => some { g5 with food := some p }
    else if reset.2 then
      let blockers : List Position := g5.segments ++ g5.food.toList
      match get_empty_pos blockers draws with
      | none => none
      | some p => some { g5 with food := some p }
    else some g5

/-- An ordinary wall death: length-2 snake [(0,5),(1,5)] heading Left
(the head is about to step to (−1,5)), food alive at (9,9). -/
def wall_death_start : GameState :=
  { head := ⟨.left, .left⟩, segments := [⟨0, 5⟩, ⟨1, 5⟩],
    last_tail_position := none, food := some ⟨9, 9⟩, score := 0 }

/-- A length-4 snake folded into a 2×2 square, about to move its head
(0,0) Right into (1,0) — the cell its tail vacates this same tick. -/
def uturn_start : GameState :=
  { head := ⟨.right, .right⟩, segments := [⟨0, 0⟩, ⟨0, 1⟩, ⟨1, 1⟩, ⟨1, 0⟩],
    last_tail_position := none, food := none, score := 0 }

/-- The spec's growth scenario: length-2 snake [(3,3),(3,2)] heading Up
with food at (3,4). -/
def eat_grow_start : GameState :=
  { head := ⟨.up, .up⟩, segments := [⟨3, 3⟩, ⟨3, 2⟩],
    last_tail_position := none, food := some ⟨3, 4⟩, score := 0 }

/-- The state the code produces from `eat_grow_start` in one tick whose
first random draw is (3,2): the food lands on the tail segment appended
this very tick. -/
def eat_grow_result : GameState :=
  { head := ⟨.up, .up⟩, segments := [⟨3, 4⟩, ⟨3, 3⟩, ⟨3, 2⟩],
    last_tail_position := some ⟨3, 2⟩, food := some ⟨3, 2⟩, score := 1 }

/-- The spec's reversal scenario start: length-2 snake [(3,3),(3,2)]
currently heading Up, no food. -/
def reversal_start : GameState :=
  { head := ⟨.up, .up⟩, segments := [⟨3, 3⟩, ⟨3, 2⟩],
    last_tail_position := none, food := none, score := 0 }

/-- C2: the self-collision `DeathEvent` is sent exactly when the newly
computed head cell occurs in the pre-move snapshot of all segment
positions (the current `segments` list, tail's old cell included); in
the 2×2 U-turn instance the signal fires even though the post-move
segment cells are pairwise distinct. -/
theorem self_collision_checked_against_premove_snapshot
    (g : GameState) (old_head : Position) (tl : List Position)
    (hseg : g.segments = old_head :: tl) :
    (((snake_movement g).self_death = true ↔
        old_head.step g.head.input_direction ∈ g.segments)) ∧
    (snake_movement uturn_start).self_death = true ∧
    (snake_movement uturn_start).state.segments.Nodup := by
  refine ⟨?_, by decide, by decide⟩
  obtain ⟨hd, segs, lt, fo, sc⟩ := g
  simp only at hseg
  subst hseg
  simp [snake_movement]

/-- Witness for C2 at the U-turn instance: the head steps onto the old
tail cell, which is in the pre-move snapshot. -/
theorem self_collision_checked_against_premove_snapshot_witness :
    uturn_start.segments = ⟨0, 0⟩ :: [⟨0, 1⟩, ⟨1, 1⟩, ⟨1, 0⟩] ∧
    ((snake_movement uturn_start).self_death = true ↔
      Position.step ⟨0, 0⟩ uturn_start.head.input_direction ∈ uturn_start.segments) :=
  ⟨rfl, (self_collision_checked_against_premove_snapshot uturn_start ⟨0, 0⟩
    [⟨0, 1⟩, ⟨1, 1⟩, ⟨1, 0⟩] rfl).1⟩

/-- C6: the bounds `DeathEvent` is sent exactly when the new head cell
leaves `[0,16) × [0,16)` — for any new head whose coordinates are valid
`i32` values, the `as u32` comparisons of the source coincide with the
plain inequalities `16 ≤ x`, `16 ≤ y`. -/
theorem bounds_death_iff_outside_arena
    (g : GameState) (old_head : Position) (tl : List Position)
    (hseg : g.segments = old_head :: tl)
    (hx : (old_head.step g.head.input_direction).x < 2 ^ 31)
    (hy : (old_head.step g.head.input_direction).y < 2 ^ 31) :
    ((snake_movement g).bounds_death = true ↔
      ((old_head.step g.head.input_direction).x < 0 ∨
       (old_head.step g.head.input_direction).y < 0 ∨
       16 ≤ (old_head.step g.head.input_direction).x ∨
       16 ≤ (old_head.step g.head.input_direction).y)) := by
  obtain ⟨hd, segs, lt, fo, sc⟩ := g
  simp only at hseg hx hy
  subst hseg
  simp only [snake_movement, ARENA_WIDTH, ARENA_HEIGHT, i32_as_u32,
    Bool.or_eq_true, decide_eq_true_eq]
  omega

/-- Witness for C6: a head at (0,5) stepping Left to (−1,5) triggers the
bounds death signal. -/
theorem bounds_death_iff_outside_arena_witness :
    ((snake_movement
        { head := ⟨.left, .left⟩, segments := [⟨0, 5⟩],
          last_tail_position := none, food := none, score := 0 }).bounds_death = true ↔
      (((⟨0, 5⟩ : Position).step .left).x < 0 ∨
       ((⟨0, 5⟩ : Position).step .left).y < 0 ∨
       16 ≤ ((⟨0, 5⟩ : Position).step .left).x ∨
       16 ≤ ((⟨0, 5⟩ : Position).step .left).y)) :=
  bounds_death_iff_outside_arena
    { head := ⟨.left, .left⟩, segments := [⟨0, 5⟩],
      last_tail_position := none, food := none, score := 0 }
    ⟨0, 5⟩ [] rfl (by decide) (by decide)

/-- C7: one movement step latches `direction := input_direction`, places
the head at the old head offset one unit with the Cartesian sign mapping
(Left x−1, Right x+1, Up y+1, Down y−1), moves every trailing segment to
the pre-move snapshot cell of the segment ahead of it, and records the
pre-move cell of the last segment in `LastTailPosition`. -/
theorem movement_step_shift
    (g : GameState) (old_head : Position) (tl : List Position)
    (hseg : g.segments = old_head :: tl) :
    (snake_movement g).state.head.direction = g.head.input_direction ∧
    (snake_movement g).state.segments =
      old_head.step g.head.input_direction :: (old_head :: tl).dropLast ∧
    (g.head.input_direction = .left →
      old_head.step g.head.input_direction = ⟨old_head.x - 1, old_head.y⟩) ∧
    (g.head.input_direction = .right →
      old_head.step g.head.input_direction = ⟨old_head.x + 1, old_head.y⟩) ∧
    (g.head.input_direction = .up →
      old_head.step g.head.input_direction = ⟨old_head.x, old_head.y + 1⟩) ∧
    (g.head.input_direction = .down →
      old_head.step g.head.input_direction = ⟨old_head.x, old_head.y - 1⟩) ∧
    (∀ i : Nat, i + 1 < (old_head :: tl).length →
      (snake_movement g).state.segments[i + 1]? = (old_head :: tl)[i]?) ∧
    (snake_movement g).state.last_tail_position =
      some ((old_head :: tl).getLast (List.cons_ne_nil old_head tl)) := by
  obtain ⟨hd, segs, lt, fo, sc⟩ := g
  simp only at hseg
  subst hseg
  refine ⟨rfl, rfl, ?_, ?_, ?_, ?_, ?_, rfl⟩
  · rintro h; simp only at h; rw [h]; rfl
  · rintro h; simp only at h; rw [h]; rfl
  · rintro h; simp only at h; rw [h]; rfl
  · rintro h; simp only at h; rw [h]; rfl
  · intro i hi
    simp only [snake_movement, List.getElem?_cons_succ]
    rw [List.dropLast_eq_take, List.getElem?_take]
    simp only [List.length_cons] at hi ⊢
    rw [if_pos (by omega)]

/-- Witness for C7 at the U-turn snake. -/
theorem movement_step_shift_witness :
    (snake_movement uturn_start).state.head.direction =
      uturn_start.head.input_direction ∧
    (snake_movement uturn_start).state.segments =
      Position.step ⟨0, 0⟩ uturn_start.head.input_direction ::
        (⟨0, 0⟩ :: [⟨0, 1⟩, ⟨1, 1⟩, ⟨1, 0⟩]).dropLast :=
  ⟨(movement_step_shift uturn_start ⟨0, 0⟩ [⟨0, 1⟩, ⟨1, 1⟩, ⟨1, 0⟩] rfl).1,
   (movement_step_shift uturn_start ⟨0, 0⟩ [⟨0, 1⟩, ⟨1, 1⟩, ⟨1, 0⟩] rfl).2.1⟩

/-- C10: the movement system neither adds nor removes segments and leaves
the score, the food cell and the latched input direction untouched. -/
theorem movement_preserves_frame (g : GameState) :
    (snake_movement g).state.segments.length = g.segments.length ∧
    (snake_movement g).state.score = g.score ∧
    (snake_movement g).state.food = g.food ∧
    (snake_movement g).state.head.input_direction = g.head.input_direction := by
  obtain ⟨hd, segs, lt, fo, sc⟩ := g
  cases segs with
  | nil => exact ⟨rfl, rfl, rfl, rfl⟩
  | cons old_head tl =>
    refine ⟨?_, rfl, rfl, rfl⟩
    simp [snake_movement, List.length_dropLast]

/-- C5: the latch stores the derived raw direction exactly when it is not
the opposite of the current direction and otherwise leaves the head (in
particular the pending `input_direction`) unchanged; consequently, with
the snake heading Up, submitting Down (the S key) and ticking moves the
head up to (3,4). -/
theorem input_latch_rejects_reversal (kb : KeyboardInput) (head : SnakeHead) :
    (chosen_direction kb head ≠ head.direction.opposite →
      (snake_movement_input kb head).input_direction = chosen_direction kb head) ∧
    (chosen_direction kb head = head.direction.opposite →
      snake_movement_input kb head = head) ∧
    tick [⟨false, false, true, false⟩] [] reversal_start =
      some { head := ⟨.up, .up⟩, segments := [⟨3, 4⟩, ⟨3, 3⟩],
             last_tail_position := some ⟨3, 2⟩, food := none, score := 0 } := by
  refine ⟨?_, ?_, by decide⟩
  · intro hne
    simp [snake_movement_input, hne]
  · intro heq
    simp [snake_movement_input, heq]

/-- Witness for C5: with current direction Right, pressing S latches
Down (not a reversal of Right). -/
theorem input_latch_rejects_reversal_witness :
    chosen_direction ⟨false, false, true, false⟩ ⟨.right, .up⟩ ≠
      Direction.opposite (SnakeHead.direction ⟨.right, .up⟩) ∧
    (snake_movement_input ⟨false, false, true, false⟩ ⟨.right, .up⟩).input_direction =
      chosen_direction ⟨false, false, true, false⟩ ⟨.right, .up⟩ :=
  ⟨by decide,
   (input_latch_rejects_reversal ⟨false, false, true, false⟩ ⟨.right, .up⟩).1 (by decide)⟩

/-- C9: simultaneous keys resolve to a single intent with fixed
precedence A (Left) over D (Right) over S (Down) over W (Up) — the lower
priority keys are never consulted — and the reversal check applies to
that single intent only: holding A and W while heading Right changes
nothing, because Left is rejected and Up is never chosen. -/
theorem input_precedence_single_intent (d s w : Bool) (head : SnakeHead) :
    snake_movement_input ⟨true, d, s, w⟩ head =
      snake_movement_input ⟨true, false, false, false⟩ head ∧
    snake_movement_input ⟨false, true, s, w⟩ head =
      snake_movement_input ⟨false, true, false, false⟩ head ∧
    snake_movement_input ⟨false, false, true, w⟩ head =
      snake_movement_input ⟨false, false, true, false⟩ head ∧
    snake_movement_input ⟨true, d, s, true⟩ ⟨.right, .right⟩ = ⟨.right, .right⟩ :=
  ⟨rfl, rfl, rfl, rfl⟩

/-- C4: however many `DeathEvent`s (1 from bounds, 1 from
self-collision) are pending, `game_over` performs exactly one reset:
segments replaced by the fixed two-cell body with head (3,3), trailing
segment (3,2) and both direction fields Up, the food removed, the score
zeroed, and one fresh food placement requested; the result is the same
as for a single death signal. -/
theorem death_signals_single_reset (g : GameState) (deaths : Nat)
    (hd : 1 ≤ deaths) :
    game_over deaths g =
      ({ head := ⟨.up, .up⟩, segments := [⟨3, 3⟩, ⟨3, 2⟩],
         last_tail_position := g.last_tail_position,
         food := none, score := 0 }, true) ∧
    game_over deaths g = game_over 1 g := by
  have hne : deaths ≠ 0 := by omega
  obtain ⟨hd0, segs, lt, fo, sc⟩ := g
  constructor
  · simp [game_over, hne, spawn_snake, spawn_snake_segments]
  · simp [game_over, hne]

/-- Witness for C4: two death signals (bounds and self-collision in the
same tick) still yield the single standard reset. -/
theorem death_signals_single_reset_witness :
    1 ≤ 2 ∧
    game_over 2 eat_grow_start =
      ({ head := ⟨.up, .up⟩, segments := [⟨3, 3⟩, ⟨3, 2⟩],
         last_tail_position := eat_grow_start.last_tail_position,
         food := none, score := 0 }, true) :=
  ⟨by decide, (death_signals_single_reset eat_grow_start 2 (by decide)).1⟩

/-- C8 (violated by the code): the random draws are not the only source
of non-determinism.  The two admissible executor orders of the
label-unordered, conflicting pair `game_over` / `food_event_reader`
disagree on any ordinary death tick: replaying the wall death from
`wall_death_start` with no key input and the identical draw stream
[(3,3),(9,9)], the reader-after order places the food at (3,3) (blockers
are the frame-start entities: the out-of-bounds body [(−1,5),(0,5)] and
the dying food (9,9)), while the reader-first order reads the event next
frame and places it at (9,9) (draw (3,3) is blocked by the fresh snake),
so the two runs produce different snapshots. -/
theorem scheduler_order_changes_replay :
    (tick [] [⟨3, 3⟩, ⟨9, 9⟩] wall_death_start).map GameState.snapshot =
      some ⟨[⟨3, 3⟩, ⟨3, 2⟩], some ⟨3, 3⟩, 0⟩ ∧
    (tick_reader_first [] [⟨3, 3⟩, ⟨9, 9⟩] wall_death_start).map GameState.snapshot =
      some ⟨[⟨3, 3⟩, ⟨3, 2⟩], some ⟨9, 9⟩, 0⟩ ∧
    (tick [] [⟨3, 3⟩, ⟨9, 9⟩] wall_death_start).map GameState.snapshot ≠
      (tick_reader_first [] [⟨3, 3⟩, ⟨9, 9⟩] wall_death_start).map GameState.snapshot := by
  exact ⟨by decide, by decide, by decide⟩

/-- C1 (violated by the code): in the tick where the snake eats at (3,4)
and grows, the blocker query of `food_spawner` runs before the deferred
`Commands` of this frame are applied, so it does not contain the tail
segment appended at (3,2); with first draw (3,2) the new food is placed
exactly on a cell of the post-tick snake body. -/
theorem food_spawn_lands_on_grown_tail :
    tick [] [⟨3, 2⟩] eat_grow_start = some eat_grow_result ∧
    eat_grow_result.food = some ⟨3, 2⟩ ∧
    (⟨3, 2⟩ : Position) ∈ eat_grow_result.segments := by
  exact ⟨by decide, rfl, by decide⟩

/-- C3 (violated by the code): the spec's growth scenario does produce
length 3, body [(3,4),(3,3),(3,2)] and score 1, but the relocated food
is not guaranteed outside {(3,4),(3,3),(3,2)} — with first draw (3,2)
the code accepts (3,2), a cell of that very set. -/
theorem growth_tick_divergence :
    tick [] [⟨3, 2⟩] eat_grow_start = some eat_grow_result ∧
    eat_grow_result.segments = [⟨3, 4⟩, ⟨3, 3⟩, ⟨3, 2⟩] ∧
    eat_grow_result.segments.length = 3 ∧
    eat_grow_result.score = 1 ∧
    eat_grow_result.food = some ⟨3, 2⟩ := by
  exact ⟨by decide, rfl, rfl, rfl, rfl⟩
